import Mathlib

/-!
Shallow embedding of `src/sta/sta_wrapper.py` (class `SensorThingsProvider`).

Modelling conventions:
* Python values flowing through the untyped call chain are modelled by `PyVal`
  (only integers and strings occur in the code paths under study).
* Machine-level Python behaviour is made explicit: `str(x)` is `pyStr`,
  truthiness is `pyTruthy`, `min` over possibly mixed types is `pyMin`
  (raising `TypeError` on an `int`/`str` comparison, as CPython does).
* Fallible code returns `Except PyErr _`; each `PyErr` constructor names the
  Python exception class raised at the corresponding program point.
* The HTTP transport is an oracle `Server`: `first` is the response to the
  initial GET issued by `_load`, and `pages` is the finite trace of responses
  the server returns to the successive `@iot.nextLink` GETs, in order.
  Requesting a page beyond the provided trace is modelled as `transportError`
  (the HTTP library would raise there).  JSON bodies are either a well-shaped
  STA payload (`some`) or undecodable (`none`, modelling `JSONDecodeError`).
* Records inside a page are opaque and abstracted as `Nat`; in the
  single-identifier path the accumulator holds the whole decoded response
  object (`Entry.obj`), exactly as `v = [response, ]` does in the source.
-/

/-- Python runtime values occurring in the call chains under study. -/
inductive PyVal where
  | int : Int → PyVal
  | str : String → PyVal
deriving DecidableEq, Repr

/-- Python `str(x)` for the values modelled. -/
def pyStr : PyVal → String
  | .int n => toString n
  | .str s => s

/-- Python truthiness for the values modelled. -/
def pyTruthy : PyVal → Bool
  | .int n => n != 0
  | .str s => s != ""

/-- Python exception classes raised by the embedded code, plus
`transportError` for a GET past the end of the server's page trace. -/
inductive PyErr where
  | connectionError
  | jsonDecodeError
  | nameError
  | typeError
  | lookupError
  | keyError
  | valueError
  | transportError
deriving DecidableEq, Repr

/-- Python `min(limit, count)` as used at
`hits_ = 1 if identifier else min(limit, response.get('@iot.count'))`:
comparing a `str` limit with the integer count raises `TypeError`. -/
def pyMin (limit : PyVal) (count : Nat) : Except PyErr Int :=
  match limit with
  | .int n => pure (min n (count : Int))
  | .str _ => throw PyErr.typeError

/-- The module-level `ENTITY` set of STA resource-type names. -/
def ENTITY : List String :=
  ["Thing", "Things", "Observation", "Observations",
   "Location", "Locations", "Sensor", "Sensors",
   "Datastream", "Datastreams", "ObservedProperty",
   "ObservedProperties", "FeatureOfInterest", "FeaturesOfInterest",
   "HistoricalLocation", "HistoricalLocations"]

/-- The module-level `ENTITY_LOCATION` dict, as a lookup function. -/
def ENTITY_LOCATION : String → Option String := fun e =>
  if e = "Things" then some "Locations/location"
  else if e = "Observations" then some "FeatureOfInterest/feature"
  else if e = "Locations" then some "location"
  else if e = "Sensors" then some "Datastreams/Thing/Locations/location"
  else if e = "Datastreams" then some "Thing/Locations/location"
  else if e = "ObservedProperties" then some "Datastreams/Thing/Locations/location"
  else if e = "FeaturesOfInterest" then some "feature"
  else if e = "HistoricalLocations" then some "Locations/location"
  else none

/-- Membership test `entity in ENTITY_LOCATION.keys()` for a `PyVal` entity:
a non-string key is simply absent from the dict. -/
def entityLocation : PyVal → Option String
  | .str s => ENTITY_LOCATION s
  | .int _ => none

/-- Provider configuration: `data` (base URL) and optional `timefield`
captured by `__init__` as `self._url` and `self.time_field`. -/
structure Config where
  url : String
  time_field : Option String
deriving DecidableEq, Repr

/-- Python `datetime_.split('/')` restricted to a single-character
separator, modelled over the character list so it evaluates in the kernel:
`''.split('/') == ['']`, and separators at the ends yield empty pieces. -/
def splitOnChar (c : Char) : List Char → List (List Char)
  | [] => [[]]
  | x :: xs =>
    let r := splitOnChar c xs
    if x = c then [] :: r
    else
      match r with
      | [] => [[x]]
      | y :: ys => (x :: y) :: ys

/-- Python `s.split(c)` for a one-character separator. -/
def pySplit (s : String) (c : Char) : List String :=
  (splitOnChar c s.data).map String.mk

/-- Python `c in s` for a one-character needle. -/
def pyContainsChar (s : String) (c : Char) : Bool := s.data.contains c

/-- One equality clause of `_make_filter`'s property loop:
`f'{name}/@iot.id eq {value}'` when the name is an entity name,
`f'{name} eq {value}'` otherwise. -/
def eqClause (p : String × PyVal) : String :=
  if ENTITY.contains p.1 then p.1 ++ "/@iot.id eq " ++ pyStr p.2
  else p.1 ++ " eq " ++ pyStr p.2

/-- The `bbox_` polygon f-string.  The source writes it across two physical
lines with a backslash continuation inside the literal, so the 21 spaces of
indentation on the second line are part of the string. -/
def polygonOf (minx miny maxx maxy : PyVal) : String :=
  "POLYGON ((" ++ pyStr minx ++ " " ++ pyStr miny ++ ", " ++
    pyStr maxx ++ " " ++ pyStr miny ++ ", " ++
    "                     " ++
    pyStr maxx ++ " " ++ pyStr maxy ++ ", " ++
    pyStr minx ++ " " ++ pyStr maxy ++ ", " ++
    pyStr minx ++ " " ++ pyStr miny ++ "))"

/-- Embedding of `SensorThingsProvider._make_filter`. -/
def mkFilter (time_field : Option String) (entity : PyVal)
    (properties : List (String × PyVal)) (bbox : List PyVal)
    (datetime_ : Option String) : Except PyErr String := do
  let ret := properties.map eqClause
  let ret ←
    if bbox.isEmpty then pure ret
    else
      match entityLocation entity with
      | none => pure ret
      | some location =>
        match bbox with
        | [minx, miny, maxx, maxy] =>
          pure (ret ++ ["st_within(" ++ location ++ ", geography'" ++
            polygonOf minx miny maxx maxy ++ "')"])
        | _ => throw PyErr.valueError
  let ret ←
    match datetime_ with
    | none => pure ret
    | some dt =>
      match time_field with
      | none => throw PyErr.lookupError
      | some tf =>
        if pyContainsChar dt '/' then
          match pySplit dt '/' with
          | [time_start, time_end] =>
            pure (ret ++
              (if time_start ≠ ".." then [tf ++ " ge " ++ time_start] else []) ++
              (if time_end ≠ ".." then [tf ++ " le " ++ time_end] else []))
          | _ => throw PyErr.valueError
        else pure (ret ++ [tf ++ " eq " ++ dt])
  pure (String.intercalate " and " ret)

/-- Sort descriptor: a dict with keys `property` and `order`. -/
structure SortSpec where
  property : String
  order : String
deriving DecidableEq, Repr

/-- The `_map[_['order']]` dict lookup of `_make_orderby`:
an order marker other than `+`/`-` raises `KeyError`. -/
def orderWord : String → Except PyErr String := fun o =>
  if o = "+" then pure "asc"
  else if o = "-" then pure "desc"
  else throw PyErr.keyError

/-- The loop of `_make_orderby`.  Note the source rebinds `ret = [ ... ]`
on every iteration instead of appending, so the accumulator is replaced by a
singleton each time around. -/
def orderbyLoop : List SortSpec → List String → Except PyErr (List String)
  | [], ret => pure ret
  | s :: rest, _ => do
    let ow ← orderWord s.order
    let prop := if ENTITY.contains s.property
      then s.property ++ "/@iot.id" else s.property
    orderbyLoop rest [prop ++ " " ++ ow]

/-- Embedding of `SensorThingsProvider._make_orderby`. -/
def mkOrderby (sortby : List SortSpec) : Except PyErr String := do
  let ret ← orderbyLoop sortby []
  pure (String.intercalate "," ret)

/-- A decoded STA JSON page: `value`, `@iot.count`, optional `@iot.nextLink`. -/
structure STAResponse where
  value : List Nat
  iot_count : Nat
  nextLink : Option String
deriving DecidableEq, Repr

/-- One HTTP response: status code and decodable body (`none` = bad JSON). -/
structure HttpResp where
  status : Nat
  body : Option STAResponse
deriving DecidableEq, Repr

/-- Server oracle for one `_load` call: the initial response and the finite
trace of responses to the successive next-link GETs. -/
structure Server where
  first : HttpResp
  pages : List HttpResp
deriving DecidableEq, Repr

/-- An outbound GET: URL plus ordered query parameters. -/
structure Request where
  url : String
  params : List (String × String)
deriving DecidableEq, Repr

/-- An element of the accumulator `v`: either a record from a page's `value`
array, or — in the identifier path `v = [response, ]` — the whole response. -/
inductive Entry where
  | record : Nat → Entry
  | obj : STAResponse → Entry
deriving DecidableEq, Repr

/-- The GeoJSON-shaped dict `feature_collection` built by `_load`
(`numberMatched` is set only on the `hits` path). -/
structure FeatureCollection where
  type : String
  features : List Nat
  numberMatched : Option Nat
deriving DecidableEq, Repr

/-- Possible successful return values of `_load`. -/
inductive LoadOutcome where
  | collection : FeatureCollection → LoadOutcome
  | records : List Entry → LoadOutcome
deriving DecidableEq, Repr

deriving instance DecidableEq for Except

/-- Observable behaviour of one `_load` call: the GETs issued, in order, and
the returned value or raised exception. -/
structure LoadTrace where
  requests : List Request
  outcome : Except PyErr LoadOutcome
deriving DecidableEq, Repr

/-- The `requests.compat.urljoin` (urllib) semantics needed here, for a
relative reference without scheme or authority: an empty base returns the
reference, an empty reference returns the base, and otherwise the base's last
path segment is replaced by the reference. -/
def urljoinStr (base rel : String) : String :=
  String.mk (base.data.reverse.dropWhile (fun c => c ≠ '/')).reverse ++ rel

/-- The call `urljoin(self._url, entity)` with an untyped `entity`:
urllib returns `url` as-is if the base is falsy, returns the base if `url`
is falsy, and otherwise raises `TypeError` on a non-`str` `url`
("Cannot mix str and non-str arguments").  When the base is empty the
returned value is only ever used inside f-strings, so it is coerced with
`str` here. -/
def urljoinPy (base : String) (u : PyVal) : Except PyErr String :=
  if base = "" then pure (pyStr u)
  else if pyTruthy u then
    match u with
    | .str s => pure (urljoinStr base s)
    | .int _ => throw PyErr.typeError
  else pure base

/-- The `codes.bad` constant of the `requests` library. -/
def codes_bad : Nat := 400

/-- Truthiness of the `identifier` argument, used by
`if identifier:`, `v = [response, ] if identifier else ...` and
`hits_ = 1 if identifier else ...`. -/
def identTruthy : Option PyVal → Bool
  | none => false
  | some v => pyTruthy v

/-- The `while len(v) < hits_:` pagination loop of `_load`: follow the
current response's `@iot.nextLink` (breaking when absent), decode each page
and extend `v` with its `value` array.  Page status codes are never checked.
Returns the GETs issued and the final accumulator (or the exception). -/
def paginate : STAResponse → List HttpResp → List Entry → Int →
    List Request × Except PyErr (List Entry)
  | response, [], v, hits_ =>
    if (v.length : Int) < hits_ then
      match response.nextLink with
      | none => ([], Except.ok v)
      | some _ => ([], Except.error PyErr.transportError)
    else ([], Except.ok v)
  | response, p :: ps, v, hits_ =>
    if (v.length : Int) < hits_ then
      match response.nextLink with
      | none => ([], Except.ok v)
      | some link =>
        match p.body with
        | none => ([⟨link, []⟩], Except.error PyErr.jsonDecodeError)
        | some resp2 =>
          let r := paginate resp2 ps (v ++ resp2.value.map Entry.record) hits_
          (⟨link, []⟩ :: r.1, r.2)
    else ([], Except.ok v)
termination_by structural _ pages _ _ => pages

/-- Embedding of `SensorThingsProvider._load`.  Parameters follow the Python
signature order (`select_properties` and `skip_geometry` are accepted by the
source but never used in the body, so they are omitted).  The final
`return v[:hits]` references the name `hits`, which is never bound (only
`hits_` is), so every path that reaches it raises `NameError`. -/
def loadSTA (cfg : Config) (srv : Server) (entity : PyVal)
    (startindex : PyVal) (limit : PyVal) (resulttype : String)
    (identifier : Option PyVal) (bbox : List PyVal)
    (datetime_ : Option String) (properties : List (String × PyVal))
    (sortby : List SortSpec) (expand : Option String) : LoadTrace :=
  let params0 : List (String × String) :=
    [("$skip", pyStr startindex), ("$top", pyStr limit), ("$count", "true")]
  let params1 :=
    match expand with
    | some e => if e ≠ "" then params0 ++ [("$expand", e)] else params0
    | none => params0
  match (if !properties.isEmpty || !bbox.isEmpty ||
            (match datetime_ with | some d => d ≠ "" | none => false)
         then (mkFilter cfg.time_field entity properties bbox datetime_).map
                (fun f => params1 ++ [("$filter", f)])
         else pure params1) with
  | .error e => ⟨[], .error e⟩
  | .ok params2 =>
    match (if !sortby.isEmpty
           then (mkOrderby sortby).map (fun o => params2 ++ [("$orderby", o)])
           else pure params2) with
    | .error e => ⟨[], .error e⟩
    | .ok params =>
      match urljoinPy cfg.url entity with
      | .error e => ⟨[], .error e⟩
      | .ok url =>
        let req0 : Request :=
          match identifier with
          | some i =>
            if pyTruthy i then ⟨url ++ "(" ++ pyStr i ++ ")", params⟩
            else ⟨url, params⟩
          | none => ⟨url, params⟩
        if srv.first.status = codes_bad then ⟨[req0], .error .connectionError⟩
        else
          match srv.first.body with
          | none => ⟨[req0], .error .jsonDecodeError⟩
          | some response =>
            if resulttype = "hits" then
              ⟨[req0], .ok (.collection
                ⟨"FeatureCollection", [], some response.iot_count⟩)⟩
            else
              let v : List Entry :=
                if identTruthy identifier then [Entry.obj response]
                else response.value.map Entry.record
              match (if identTruthy identifier then pure (1 : Int)
                     else pyMin limit response.iot_count) with
              | .error e => ⟨[req0], .error e⟩
              | .ok hits_ =>
                let pr := paginate response srv.pages v hits_
                match pr.2 with
                | .error e => ⟨req0 :: pr.1, .error e⟩
                | .ok _ => ⟨req0 :: pr.1, .error .nameError⟩

/-- Embedding of `SensorThingsProvider.query`.  The source forwards
`self._load(startindex, limit, resulttype, bbox=bbox, datetime_=datetime_,
properties=properties, sortby=sortby, ...)`, so the three positional
arguments land on `_load`'s leading parameters `entity`, `startindex`,
`limit`, while `_load`'s own `resulttype`, `identifier` and `expand` keep
their defaults `'results'`, `None`, `None`. -/
def querySTA (cfg : Config) (srv : Server) (startindex : PyVal)
    (limit : PyVal) (resulttype : PyVal) (bbox : List PyVal)
    (datetime_ : Option String) (properties : List (String × PyVal))
    (sortby : List SortSpec) : LoadTrace :=
  loadSTA cfg srv startindex limit resulttype "results" none
    bbox datetime_ properties sortby none

/-- Embedding of `SensorThingsProvider.get`: the source calls
`self._load(entity, identifier=identifier)` with all other parameters at
their defaults. -/
def getSTA (cfg : Config) (srv : Server) (entity : PyVal)
    (identifier : PyVal) : LoadTrace :=
  loadSTA cfg srv entity (.int 0) (.int 10) "results" (some identifier)
    [] none [] [] none

/-! Concrete fixtures used by the evaluation theorems and witnesses. -/

/-- Example provider configuration without a time field. -/
def exCfg : Config := ⟨"http://example.org/v1.1/", none⟩

/-- Server answering the initial GET with two records, `@iot.count = 7` and
no continuation link. -/
def exHitsServer : Server := ⟨⟨200, some ⟨[1, 2], 7, none⟩⟩, []⟩

/-- Server reporting `@iot.count = 12` with five records per page and a
continuation link on each of the first two pages. -/
def exPageServer : Server :=
  ⟨⟨200, some ⟨[1, 2, 3, 4, 5], 12, some "http://example.org/v1.1/Things?p2"⟩⟩,
   [⟨200, some ⟨[6, 7, 8, 9, 10], 12, some "http://example.org/v1.1/Things?p3"⟩⟩]⟩

/-- Server answering the initial GET with HTTP status 500 and a decodable
body with `@iot.count = 7`. -/
def ex500Server : Server := ⟨⟨500, some ⟨[], 7, none⟩⟩, []⟩

/-- C1: `query(resulttype="hits")` does not return a count container.  The
three positional arguments shift by one slot in `self._load(startindex,
limit, resulttype, ...)`, so `_load` runs with `limit = 'hits'` and
`resulttype = 'results'`: the hits branch is skipped and
`min('hits', @iot.count)` raises `TypeError` after the single initial GET
(whose `$top` parameter is the string `hits`). -/
theorem query_hits_raises_typeError :
    querySTA exCfg exHitsServer (.int 0) (.int 10) (.str "hits") [] none [] []
      = ⟨[⟨"http://example.org/v1.1/",
           [("$skip", "10"), ("$top", "hits"), ("$count", "true")]⟩],
         .error .typeError⟩ := rfl

/-- C2: with `resulttype='results'`, a 12-record total and ten requested
records, the pagination loop does accumulate `min(limit, @iot.count) = 10`
records over two GETs, but `_load` then executes `return v[:hits]` where
only `hits_` is bound, so it raises `NameError` instead of returning them. -/
theorem load_results_raises_not_returns :
    loadSTA exCfg exPageServer (.str "Things") (.int 0) (.int 10) "results"
        none [] none [] [] none
      = ⟨[⟨"http://example.org/v1.1/Things",
           [("$skip", "0"), ("$top", "10"), ("$count", "true")]⟩,
          ⟨"http://example.org/v1.1/Things?p2", []⟩],
         .error .nameError⟩
    ∧ (paginate ⟨[1, 2, 3, 4, 5], 12, some "http://example.org/v1.1/Things?p2"⟩
          exPageServer.pages ([1, 2, 3, 4, 5].map Entry.record) 10).2
      = .ok ([1, 2, 3, 4, 5, 6, 7, 8, 9, 10].map Entry.record) := ⟨by decide, by decide⟩

/-- C5 (counterexample): HTTP 500 is not a success status, yet `_load` does
not raise `ConnectionError` there — the source only compares the status to
`codes.bad` (400) — so this hits-mode call succeeds and returns the count. -/
theorem status500_not_connectionError :
    ex500Server.first.status = 500 ∧ ¬ (200 ≤ 500 ∧ 500 < 300)
    ∧ (loadSTA exCfg ex500Server (.str "Things") (.int 0) (.int 10) "hits"
         none [] none [] [] none).outcome
      = Except.ok (.collection ⟨"FeatureCollection", [], some 7⟩) :=
  ⟨rfl, by decide, rfl⟩

/-- Joining the base URL with a string entity never raises. -/
theorem urljoinPy_str_ok (base s : String) :
    ∃ u, urljoinPy base (PyVal.str s) = Except.ok u := by
  unfold urljoinPy
  by_cases hb : base = "" <;> by_cases hs : pyTruthy (PyVal.str s) <;>
    simp [hb, hs] <;> exact ⟨_, rfl⟩

/-- Joining a nonempty base URL with a nonempty string entity replaces the
base's last path segment. -/
theorem urljoinPy_str_eq (base s : String) (hb : base ≠ "") (hs : s ≠ "") :
    urljoinPy base (PyVal.str s) = Except.ok (urljoinStr base s) := by
  unfold urljoinPy pyTruthy
  simp [hb, hs, pure, Except.pure]

/-- C3: for every `_load` call with a `resulttype` other than `"hits"` —
the identifier path used by `get` included — in which the initial response
is accepted (status is not 400) and decodes, and the pagination loop
terminates (here: the decoded response carries no continuation link), the
call raises `NameError`: the final `return v[:hits]` references the name
`hits` while only `hits_` is bound, so the accumulated records are never
returned. -/
theorem load_nonhits_raises_nameError (cfg : Config) (first : HttpResp)
    (pages : List HttpResp) (e : String) (startindex : PyVal) (lim : Int)
    (resulttype : String) (identifier : Option PyVal) (response : STAResponse)
    (hrt : resulttype ≠ "hits") (hstatus : first.status ≠ 400)
    (hbody : first.body = some response) (hlink : response.nextLink = none) :
    (loadSTA cfg ⟨first, pages⟩ (.str e) startindex (.int lim) resulttype
        identifier [] none [] [] none).outcome
      = Except.error PyErr.nameError := by
  obtain ⟨u, hu⟩ := urljoinPy_str_ok cfg.url e
  have hpag : ∀ (v : List Entry) (h_ : Int),
      (paginate response pages v h_).2 = Except.ok v := by
    intro v h_
    cases pages with
    | nil => unfold paginate; split <;> simp [hlink]
    | cons p ps => unfold paginate; split <;> simp [hlink]
  unfold loadSTA
  simp only [List.isEmpty_nil, Bool.not_true, Bool.false_or, codes_bad, hu,
    hbody, pure]
  cases hid : identTruthy identifier <;>
    simp [hid, hstatus, hrt, pyMin, pure, Except.pure, hpag]

/-- Witness for C3 at a concrete input: the identifier lookup issued by
`get` (status 200, decodable body) raises `NameError`. -/
theorem load_nonhits_raises_nameError_witness :
    ("results" : String) ≠ "hits" ∧ (200 : Nat) ≠ 400 ∧
    (getSTA exCfg ⟨⟨200, some ⟨[], 1, none⟩⟩, []⟩ (.str "Things")
        (.int 42)).outcome = Except.error PyErr.nameError :=
  ⟨by decide, by decide,
    load_nonhits_raises_nameError exCfg ⟨200, some ⟨[], 1, none⟩⟩ []
      "Things" (.int 0) 10 "results" (some (.int 42)) ⟨[], 1, none⟩
      (by decide) (by decide) rfl rfl⟩

/-- C4: `query` forwards its arguments into `_load` shifted one slot to the
left: the first conjunct records the binding (`query`'s `startindex` becomes
`_load`'s `entity`, `limit` becomes `startindex`, `resulttype` becomes
`limit`, and `_load`'s own `resulttype` stays at its default `"results"`);
the second makes it observable on the initial GET, whose URL path segment is
the `startindex` argument and whose `$skip` and `$top` parameters are the
stringified `limit` and `resulttype` arguments. -/
theorem query_shifts_arguments (cfg : Config) (srv : Server) (e : String)
    (l r : PyVal) (he : e ≠ "") (hbase : cfg.url ≠ "") :
    querySTA cfg srv (.str e) l r [] none [] []
      = loadSTA cfg srv (.str e) l r "results" none [] none [] [] none
    ∧ (querySTA cfg srv (.str e) l r [] none [] []).requests.head?
      = some ⟨urljoinStr cfg.url e,
          [("$skip", pyStr l), ("$top", pyStr r), ("$count", "true")]⟩ := by
  refine ⟨rfl, ?_⟩
  unfold querySTA loadSTA
  simp only [List.isEmpty_nil, Bool.not_true, Bool.false_or, codes_bad,
    urljoinPy_str_eq cfg.url e hbase he, pure, Except.pure]
  by_cases h4 : srv.first.status = 400
  · simp [h4]
  · simp only [h4, if_false]
    cases hb : srv.first.body with
    | none => simp
    | some response =>
      cases hm : pyMin r response.iot_count <;>
        simp only [hm, identTruthy, Bool.false_eq_true, if_false]
      · rfl
      · split <;> first | rfl | (split <;> rfl)

/-- Witness for C4 at a concrete input: `query(startindex="Things",
limit=20, resulttype="hits")` issues its initial GET against
`.../Things` with `$skip=20` and `$top=hits`. -/
theorem query_shifts_arguments_witness :
    ("Things" : String) ≠ "" ∧ exCfg.url ≠ "" ∧
    (querySTA exCfg exHitsServer (.str "Things") (.int 20) (.str "hits")
        [] none [] []).requests.head?
      = some ⟨"http://example.org/v1.1/Things",
          [("$skip", "20"), ("$top", "hits"), ("$count", "true")]⟩ :=
  ⟨by decide, by decide, by
    have h := (query_shifts_arguments exCfg exHitsServer "Things"
      (.int 20) (.str "hits") (by decide) (by decide)).2
    simpa using h⟩

/-- The pagination loop never raises `ConnectionError`: the status codes of
continuation-page responses are never checked. -/
theorem paginate_no_connectionError (pages : List HttpResp)
    (response : STAResponse) (v : List Entry) (hits_ : Int) :
    (paginate response pages v hits_).2
      ≠ Except.error PyErr.connectionError := by
  induction pages generalizing response v with
  | nil =>
    unfold paginate
    split
    · cases response.nextLink <;> simp
    · simp
  | cons p ps ih =>
    unfold paginate
    split
    · cases response.nextLink with
      | none => simp
      | some link =>
        cases p.body with
        | none => simp
        | some resp2 => simpa using ih resp2 _
    · simp

/-- C5 (amended): `_load` raises `ConnectionError` exactly when the status
code of the initial response equals 400 (`requests`' `codes.bad`); any
other status — success or not — passes the check, and continuation-page
responses are never status-checked at all. -/
theorem connectionError_iff_status_400 (cfg : Config) (srv : Server)
    (e : String) (si lim : PyVal) (rt : String) (ident : Option PyVal) :
    ((loadSTA cfg srv (.str e) si lim rt ident [] none [] [] none).outcome
        = Except.error PyErr.connectionError)
      ↔ srv.first.status = 400 := by
  obtain ⟨u, hu⟩ := urljoinPy_str_ok cfg.url e
  unfold loadSTA
  simp only [List.isEmpty_nil, Bool.not_true, Bool.false_or, codes_bad, hu,
    pure, Except.pure]
  by_cases h4 : srv.first.status = 400
  · simp [h4]
  · simp only [h4, if_false, iff_false]
    cases hb : srv.first.body with
    | none => simp
    | some response =>
      by_cases hrt : rt = "hits"
      · simp [hrt]
      · simp only [hrt, if_false]
        cases hid : identTruthy ident <;>
          simp only [Bool.false_eq_true, if_false, if_true]
        · cases hm : pyMin lim response.iot_count with
          | error err =>
            cases lim with
            | int n => simp_all [pyMin, pure, Except.pure]
            | str s =>
              simp [pyMin, throw, throwThe, MonadExceptOf.throw]
              simp only [pyMin, throw, throwThe, MonadExceptOf.throw,
                Except.error.injEq] at hm
              intro hc
              rw [hc] at hm
              exact absurd hm (by decide)
          | ok hits_ =>
            simp only [hm]
            have hp := paginate_no_connectionError srv.pages response
              (List.map Entry.record response.value) hits_
            cases hq : (paginate response srv.pages
                (List.map Entry.record response.value) hits_).2 <;>
              simp_all
        · have hp := paginate_no_connectionError srv.pages response
            [Entry.obj response] 1
          cases hq : (paginate response srv.pages
              [Entry.obj response] 1).2 <;> simp_all

/-- C6: requesting temporal filtering (`datetime_` not `None`) on a provider
configured without a time field makes `_make_filter` raise `LookupError`
before any datetime clause is produced, for every entity, property list and
well-formed bbox (empty, or the documented 4-tuple). -/
theorem datetime_without_timefield_raises_lookupError (e : PyVal)
    (props : List (String × PyVal)) (bbox : List PyVal) (d : String)
    (hbbox : bbox = [] ∨ bbox.length = 4) :
    mkFilter none e props bbox (some d) = Except.error PyErr.lookupError := by
  unfold mkFilter
  rcases hbbox with h | h
  · subst h
    simp [bind, Except.bind, pure, Except.pure, throw, throwThe,
      MonadExceptOf.throw]
  · rcases bbox with _ | ⟨a, _ | ⟨b, _ | ⟨c, _ | ⟨dd, _ | t⟩⟩⟩⟩ <;>
      simp_all [bind, Except.bind, pure, Except.pure, throw, throwThe,
        MonadExceptOf.throw]
    cases hel : entityLocation e <;> simp [hel]

/-- Witness for C6 at a concrete input: a datetime filter on a provider
without a time field raises `LookupError`. -/
theorem datetime_without_timefield_raises_lookupError_witness :
    (([] : List PyVal) = [] ∨ ([] : List PyVal).length = 4) ∧
    mkFilter none (.str "Things") [("name", .str "x")] [] (some "2020-01-01")
      = Except.error PyErr.lookupError :=
  ⟨Or.inl rfl,
    datetime_without_timefield_raises_lookupError (.str "Things")
      [("name", .str "x")] [] "2020-01-01" (Or.inl rfl)⟩

/-- Joining a single clause with `" and "` is the clause itself. -/
theorem intercalate_singleton (sep x : String) :
    String.intercalate sep [x] = x := rfl

/-- C7: a property pair whose name is an entity name yields the clause
`<name>/@iot.id eq <value>`; any other name yields `<name> eq <value>`; and
all emitted clauses — equality, spatial and temporal alike — are joined
with `" and "`. -/
theorem filter_clauses_joined_with_and (tf : Option String) (e : PyVal)
    (props : List (String × PyVal)) (n : String) (v : PyVal) :
    (n ∈ ENTITY →
      mkFilter tf e ((n, v) :: props) [] none
        = Except.ok (String.intercalate " and "
            ((n ++ "/@iot.id eq " ++ pyStr v) :: props.map eqClause)))
  ∧ (n ∉ ENTITY →
      mkFilter tf e ((n, v) :: props) [] none
        = Except.ok (String.intercalate " and "
            ((n ++ " eq " ++ pyStr v) :: props.map eqClause)))
  ∧ (∀ (f loc d : String) (a b c dd : PyVal),
      entityLocation e = some loc → pyContainsChar d '/' = false →
      mkFilter (some f) e props [a, b, c, dd] (some d)
        = Except.ok (String.intercalate " and "
            (props.map eqClause
              ++ ["st_within(" ++ loc ++ ", geography'"
                    ++ polygonOf a b c dd ++ "')"]
              ++ [f ++ " eq " ++ d]))) := by
  refine ⟨fun hn => ?_, fun hn => ?_, fun f loc d a b c dd hel hd => ?_⟩
  · unfold mkFilter
    simp [bind, Except.bind, pure, Except.pure, eqClause, hn]
  · unfold mkFilter
    simp [bind, Except.bind, pure, Except.pure, eqClause, hn]
  · unfold mkFilter
    simp [bind, Except.bind, pure, Except.pure, hel, hd]

/-- Witness for C7 at concrete inputs: an entity-name property, a plain
property, and a call emitting an equality, a spatial and a temporal clause
joined with `" and "`. -/
theorem filter_clauses_joined_with_and_witness :
    mkFilter none (.str "Things")
        [("Datastream", .int 5), ("name", .str "x")] [] none
      = Except.ok "Datastream/@iot.id eq 5 and name eq x"
    ∧ mkFilter none (.str "Things") [("name", .str "x")] [] none
      = Except.ok "name eq x"
    ∧ mkFilter (some "phenomenonTime") (.str "Things") [("name", .str "x")]
        [.int 0, .int 1, .int 2, .int 3] (some "2020-01-01")
      = Except.ok ("name eq x and st_within(Locations/location, geography'"
          ++ polygonOf (.int 0) (.int 1) (.int 2) (.int 3)
          ++ "') and phenomenonTime eq 2020-01-01") :=
  ⟨((filter_clauses_joined_with_and none (.str "Things") [("name", .str "x")]
      "Datastream" (.int 5)).1 (by decide)).trans (by decide),
   ((filter_clauses_joined_with_and none (.str "Things") []
      "name" (.str "x")).2.1 (by decide)).trans (by decide),
   ((filter_clauses_joined_with_and (some "phenomenonTime") (.str "Things")
      [("name", .str "x")] "name" (.str "x")).2.2 "phenomenonTime"
      "Locations/location" "2020-01-01" (.int 0) (.int 1) (.int 2) (.int 3)
      (by decide) (by decide)).trans (by decide)⟩

/-- C8: with a non-empty bbox and an entity present in `ENTITY_LOCATION`,
the filter contains the `st_within` predicate over the entity's mapped
location path and the rectangular polygon built from the four coordinates;
for an entity absent from the map, the bbox is ignored entirely — the
filter equals the one built with no bbox at all. -/
theorem bbox_spatial_predicate (tf : Option String) (e : String)
    (a b c d : PyVal) :
    (∀ loc, ENTITY_LOCATION e = some loc →
      mkFilter tf (.str e) [] [a, b, c, d] none
        = Except.ok ("st_within(" ++ loc ++ ", geography'"
            ++ polygonOf a b c d ++ "')"))
  ∧ (ENTITY_LOCATION e = none →
      ∀ (props : List (String × PyVal)) (bbox : List PyVal)
        (dt : Option String),
        mkFilter tf (.str e) props bbox dt
          = mkFilter tf (.str e) props [] dt) := by
  constructor
  · intro loc hloc
    unfold mkFilter
    simp [bind, Except.bind, pure, Except.pure, entityLocation, hloc,
      intercalate_singleton]
  · intro hloc props bbox dt
    cases bbox with
    | nil => rfl
    | cons x xs =>
      unfold mkFilter
      simp [bind, Except.bind, pure, Except.pure, entityLocation, hloc]

/-- Witness for C8 at concrete inputs: `Things` is mapped (spatial clause
emitted); `Thing` is an entity name but has no location path, so its output
ignores a malformed one-element bbox and equals the bbox-free output. -/
theorem bbox_spatial_predicate_witness :
    ENTITY_LOCATION "Things" = some "Locations/location"
    ∧ mkFilter none (.str "Things") [] [.int 0, .int 1, .int 2, .int 3] none
      = Except.ok ("st_within(Locations/location, geography'"
          ++ polygonOf (.int 0) (.int 1) (.int 2) (.int 3) ++ "')")
    ∧ ENTITY_LOCATION "Thing" = none
    ∧ mkFilter none (.str "Thing") [("name", .str "x")] [.int 9] none
      = mkFilter none (.str "Thing") [("name", .str "x")] [] none :=
  ⟨by decide,
   (bbox_spatial_predicate none "Things" (.int 0) (.int 1) (.int 2)
      (.int 3)).1 "Locations/location" (by decide),
   by decide,
   (bbox_spatial_predicate none "Thing" (.int 9) (.int 0) (.int 0)
      (.int 0)).2 (by decide) [("name", .str "x")] [.int 9] none⟩

/-- C9: a `datetime_` of the form `<t>/..` yields only the lower-bound
clause `<time_field> ge <t>`; `../<t>` only the upper-bound clause
`<time_field> le <t>`; a two-sided range yields both, joined with
`" and "`; and a plain timestamp (no `/`) yields the single equality
clause `<time_field> eq <t>`. -/
theorem datetime_clause_forms (f : String) (e : PyVal) (dt s t : String) :
    (pyContainsChar dt '/' = true → pySplit dt '/' = [s, ".."] → s ≠ ".." →
      mkFilter (some f) e [] [] (some dt)
        = Except.ok (f ++ " ge " ++ s))
  ∧ (pyContainsChar dt '/' = true → pySplit dt '/' = ["..", t] → t ≠ ".." →
      mkFilter (some f) e [] [] (some dt)
        = Except.ok (f ++ " le " ++ t))
  ∧ (pyContainsChar dt '/' = true → pySplit dt '/' = [s, t] →
      s ≠ ".." → t ≠ ".." →
      mkFilter (some f) e [] [] (some dt)
        = Except.ok (String.intercalate " and "
            [f ++ " ge " ++ s, f ++ " le " ++ t]))
  ∧ (pyContainsChar dt '/' = false →
      mkFilter (some f) e [] [] (some dt)
        = Except.ok (f ++ " eq " ++ dt)) := by
  refine ⟨fun hc hsp hs => ?_, fun hc hsp ht => ?_,
    fun hc hsp hs ht => ?_, fun hc => ?_⟩
  · unfold mkFilter
    simp [bind, Except.bind, pure, Except.pure, hc, hsp, hs,
      intercalate_singleton]
  · unfold mkFilter
    simp [bind, Except.bind, pure, Except.pure, hc, hsp, ht,
      intercalate_singleton]
  · unfold mkFilter
    simp [bind, Except.bind, pure, Except.pure, hc, hsp, hs, ht]
  · unfold mkFilter
    simp [bind, Except.bind, pure, Except.pure, hc, intercalate_singleton]

/-- Witness for C9 at concrete datetimes: lower bound only, upper bound
only, both bounds, and a plain timestamp. -/
theorem datetime_clause_forms_witness :
    mkFilter (some "phenomenonTime") (.str "Things") [] []
        (some "2020-01-01/..")
      = Except.ok "phenomenonTime ge 2020-01-01"
    ∧ mkFilter (some "phenomenonTime") (.str "Things") [] []
        (some "../2020-01-01")
      = Except.ok "phenomenonTime le 2020-01-01"
    ∧ mkFilter (some "phenomenonTime") (.str "Things") [] []
        (some "2020-01-01/2021-01-01")
      = Except.ok "phenomenonTime ge 2020-01-01 and phenomenonTime le 2021-01-01"
    ∧ mkFilter (some "phenomenonTime") (.str "Things") [] []
        (some "2020-01-01")
      = Except.ok "phenomenonTime eq 2020-01-01" :=
  ⟨((datetime_clause_forms "phenomenonTime" (.str "Things") "2020-01-01/.."
      "2020-01-01" "x").1 (by decide) (by decide) (by decide)).trans
      (by decide),
   ((datetime_clause_forms "phenomenonTime" (.str "Things") "../2020-01-01"
      "x" "2020-01-01").2.1 (by decide) (by decide) (by decide)).trans
      (by decide),
   ((datetime_clause_forms "phenomenonTime" (.str "Things")
      "2020-01-01/2021-01-01" "2020-01-01" "2021-01-01").2.2.1 (by decide)
      (by decide) (by decide) (by decide)).trans (by decide),
   ((datetime_clause_forms "phenomenonTime" (.str "Things") "2020-01-01"
      "x" "y").2.2.2 (by decide)).trans (by decide)⟩

/-- Concatenation of strings is associative. -/
theorem strAppend_assoc (a b c : String) : a ++ b ++ c = a ++ (b ++ c) := by
  rcases a with ⟨x⟩; rcases b with ⟨y⟩; rcases c with ⟨z⟩
  show String.mk ((x ++ y) ++ z) = String.mk (x ++ (y ++ z))
  rw [List.append_assoc]

/-- The `_make_orderby` loop ignores its incoming accumulator whenever the
remaining sort list is nonempty, because the loop body rebinds `ret` to a
fresh singleton before it is ever read. -/
theorem orderbyLoop_acc_irrelevant (ls : List SortSpec) (hne : ls ≠ [])
    (acc acc' : List String) :
    orderbyLoop ls acc = orderbyLoop ls acc' := by
  cases ls with
  | nil => exact absurd rfl hne
  | cons x rest => rfl

/-- C10: a single sort spec maps `+` to `<property> asc` and `-` to
`<property> desc`, with `/@iot.id` appended for an entity-name property;
and for a longer list only the clause of the last element survives —
`ret` is overwritten, not extended, on each iteration (all earlier order
markers must still be valid, since `_map[...]` is evaluated for every
element). -/
theorem orderby_last_spec_wins (p : String) (l : List SortSpec)
    (s : SortSpec) :
    (mkOrderby [⟨p, "+"⟩]
        = Except.ok ((if p ∈ ENTITY then p ++ "/@iot.id" else p) ++ " asc"))
  ∧ (mkOrderby [⟨p, "-"⟩]
        = Except.ok ((if p ∈ ENTITY then p ++ "/@iot.id" else p) ++ " desc"))
  ∧ ((∀ x ∈ l, x.order = "+" ∨ x.order = "-") →
      mkOrderby (l ++ [s]) = mkOrderby [s]) := by
  refine ⟨?_, ?_, ?_⟩
  · by_cases hp : p ∈ ENTITY <;>
      (simp [mkOrderby, orderbyLoop, orderWord, hp, bind, Except.bind,
        pure, Except.pure] <;> exact strAppend_assoc _ _ _)
  · by_cases hp : p ∈ ENTITY <;>
      (simp [mkOrderby, orderbyLoop, orderWord, hp, bind, Except.bind,
        pure, Except.pure] <;> exact strAppend_assoc _ _ _)
  · intro hval
    induction l with
    | nil => rfl
    | cons x xs ih =>
      have hx := hval x (by simp)
      have hxs := ih (fun y hy => hval y (by simp [hy]))
      have hne : xs ++ [s] ≠ [] := by simp
      have step : orderbyLoop ((x :: xs) ++ [s]) ([] : List String)
          = orderbyLoop (xs ++ [s]) [] := by
        rcases hx with h | h <;>
          · simp only [List.cons_append, orderbyLoop, orderWord, h,
              bind, Except.bind, pure, Except.pure, reduceIte]
            exact orderbyLoop_acc_irrelevant _ hne _ _
      calc mkOrderby ((x :: xs) ++ [s])
          = mkOrderby (xs ++ [s]) := by unfold mkOrderby; rw [step]
        _ = mkOrderby [s] := hxs

/-- Witness for C10 at concrete inputs: ascending and descending single
specs (plain and entity-name properties), and a two-element list whose
output equals that of its last element alone. -/
theorem orderby_last_spec_wins_witness :
    mkOrderby [⟨"name", "+"⟩] = Except.ok "name asc"
    ∧ mkOrderby [⟨"Datastream", "-"⟩] = Except.ok "Datastream/@iot.id desc"
    ∧ mkOrderby [⟨"name", "+"⟩, ⟨"Datastream", "-"⟩]
      = mkOrderby [⟨"Datastream", "-"⟩] :=
  ⟨((orderby_last_spec_wins "name" [] ⟨"name", "+"⟩).1).trans (by decide),
   ((orderby_last_spec_wins "Datastream" [] ⟨"name", "+"⟩).2.1).trans
     (by decide),
   (orderby_last_spec_wins "x" [⟨"name", "+"⟩] ⟨"Datastream", "-"⟩).2.2
     (by decide)⟩
